import Mathlib

set_option autoImplicit false

namespace P2p

/-- Opaque network address (`Multiaddr` in the source): a structured, comparable,
cheaply cloneable immutable value. -/
abbrev Multiaddr := List Nat

/-- Opaque I/O error (`std::io::Error`). -/
abbrev IoError := Nat

/-- Dialer/Listener role marker (`upgrade::Endpoint`). -/
inductive Endpoint where
  | Dialer
  | Listener
deriving DecidableEq

/-- Readiness of a single poll in the futures 0.1 model (`futures::Async`). -/
inductive Async (α : Type) where
  | Ready (a : α)
  | NotReady
deriving DecidableEq

/-- Functorial map on `Async` (`Async::map`). -/
def Async.map {α β : Type} (f : α → β) : Async α → Async β
  | .Ready a => .Ready (f a)
  | .NotReady => .NotReady

/-- Outcome of one poll call: `futures::Poll<α, IoError> = Result<Async<α>, IoError>`. -/
abbrev Poll (α : Type) := Except IoError (Async α)

/-- Eventual outcome of a future with item `α` and error `IoError`: the value the
future resolves to once driven to completion.  `Future::and_then` is `Except.bind`
and `Future::map` is `Except.map` under this model. -/
abbrev FutureM (α : Type) := Except IoError α

/-- Listener stream model (`futures::Stream` with error `IoError`): the items it
yields in order, then either a clean end (`none`) or a stream-level error
(`some e`). -/
structure StreamM (α : Type) where
  items : List α
  final : Option IoError
deriving DecidableEq

/-- Stream::map: transforms every item, leaves the termination outcome alone. -/
def StreamM.map {α β : Type} (f : α → β) (s : StreamM α) : StreamM β :=
  ⟨s.items.map f, s.final⟩

/-- Transport trait (`Transport` in src/core): `dial`/`listen_on` consume the
transport value and either return the working object or give the
`(transport, address)` pair back (`Result<_, (Self, Multiaddr)>`).  The carrier
`τ` stands for the implementing type; the fields are the trait methods with
`self` made explicit. -/
structure TransportOps (τ conn : Type) where
  dial : τ → Multiaddr → Except (τ × Multiaddr) (FutureM conn)
  listen_on : τ → Multiaddr →
    Except (τ × Multiaddr) (StreamM (FutureM conn × Multiaddr) × Multiaddr)
  nat_traversal : τ → Multiaddr → Multiaddr → Option Multiaddr

/-- MuxedTransport trait: adds `next_incoming`, a future yielding an
upgrade-future together with the remote peer's address. -/
structure MuxedTransportOps (τ conn : Type) extends TransportOps τ conn where
  next_incoming : τ → FutureM (FutureM conn × Multiaddr)

/-- The AndThen combinator value (`struct AndThen<T, C> { transport, upgrade }`). -/
structure AndThen (τ γ : Type) where
  transport : τ
  upgrade : γ

/-- Free constructor (`pub fn and_then(transport, upgrade)`). -/
def and_then {τ γ : Type} (transport : τ) (upgrade : γ) : AndThen τ γ :=
  { transport, upgrade }

/-- Upgrade-function collaborator:
`C: FnOnce(T::Output, Endpoint, &Multiaddr) -> F` with
`F: Future<Item = O, Error = IoError>`. -/
abbrev Upgrade (conn O : Type) := conn → Endpoint → Multiaddr → FutureM O

/-- Transport impl for `AndThen<T, C>`
(src/core/src/transport/and_then.rs, lines 40-116): `listen_on` delegates to the
base transport and maps the listening stream so that each incoming connection is
chained with the upgrade at role Listener and the item's client address;
`dial` chains the dialed future with the upgrade at role Dialer and the
requested address; on rejection both rebuild the `AndThen` from the returned
transport and upgrade; `nat_traversal` forwards to the base transport. -/
def AndThen.transportOps {τ conn O : Type} (base : TransportOps τ conn) :
    TransportOps (AndThen τ (Upgrade conn O)) O where
  listen_on := fun self addr =>
    match base.listen_on self.transport addr with
    | .error (transp, addr) =>
        .error ({ transport := transp, upgrade := self.upgrade }, addr)
    | .ok (listening_stream, new_addr) =>
        .ok (listening_stream.map (fun item =>
              (item.1.bind fun stream =>
                self.upgrade stream .Listener item.2, item.2)),
             new_addr)
  dial := fun self addr =>
    match base.dial self.transport addr with
    | .error (transp, addr) =>
        .error ({ transport := transp, upgrade := self.upgrade }, addr)
    | .ok dialed_fut =>
        .ok (dialed_fut.bind fun connection =>
              self.upgrade connection .Dialer addr)
  nat_traversal := fun self server observed =>
    base.nat_traversal self.transport server observed

/-- MuxedTransport impl for `AndThen<T, C>`
(src/core/src/transport/and_then.rs, lines 118-148): `next_incoming` maps the
base transport's incoming future, chaining each connection future with the
upgrade at role Listener and the reported client address. -/
def AndThen.next_incoming {τ conn O : Type} (base : MuxedTransportOps τ conn)
    (self : AndThen τ (Upgrade conn O)) : FutureM (FutureM O × Multiaddr) :=
  (base.next_incoming self.transport).map fun item =>
    (item.1.bind fun connection =>
      self.upgrade connection .Listener item.2, item.2)

/-- Two-case sum combinator (`enum EitherOutput<A, B>` in src/core/src/either.rs),
used both as the byte-stream wrapper and as the StreamMuxer wrapper. -/
inductive EitherOutput (A B : Type) where
  | First (a : A)
  | Second (b : B)
deriving DecidableEq

/-- Byte buffer (`[u8]`), contents opaque to this core. -/
abbrev Buf := List Nat

/-- Read/Write/AsyncWrite behaviour of one concrete byte stream: each method
takes the stream state and returns the updated state plus the method's result;
`read` also returns the updated output buffer (it is handed a `&mut [u8]`). -/
structure IoOps (α : Type) where
  read : α → Buf → α × Buf × Except IoError Nat
  write : α → Buf → α × Except IoError Nat
  flush : α → α × Except IoError Unit
  shutdown : α → α × Poll Unit

/-- impl Read for EitherOutput (either.rs lines 49-61): forwards to the
populated case. -/
def EitherOutput.read {A B : Type} (ia : IoOps A) (ib : IoOps B) :
    EitherOutput A B → Buf → EitherOutput A B × Buf × Except IoError Nat
  | .First a, buf => match ia.read a buf with
    | (a2, buf2, r) => (.First a2, buf2, r)
  | .Second b, buf => match ib.read b buf with
    | (b2, buf2, r) => (.Second b2, buf2, r)

/-- impl Write for EitherOutput, `write` (either.rs lines 82-88). -/
def EitherOutput.write {A B : Type} (ia : IoOps A) (ib : IoOps B) :
    EitherOutput A B → Buf → EitherOutput A B × Except IoError Nat
  | .First a, buf => match ia.write a buf with
    | (a2, r) => (.First a2, r)
  | .Second b, buf => match ib.write b buf with
    | (b2, r) => (.Second b2, r)

/-- impl Write for EitherOutput, `flush` (either.rs lines 90-96). -/
def EitherOutput.flush {A B : Type} (ia : IoOps A) (ib : IoOps B) :
    EitherOutput A B → EitherOutput A B × Except IoError Unit
  | .First a => match ia.flush a with
    | (a2, r) => (.First a2, r)
  | .Second b => match ib.flush b with
    | (b2, r) => (.Second b2, r)

/-- impl AsyncWrite for EitherOutput, `shutdown` (either.rs lines 63-75). -/
def EitherOutput.shutdown {A B : Type} (ia : IoOps A) (ib : IoOps B) :
    EitherOutput A B → EitherOutput A B × Poll Unit
  | .First a => match ia.shutdown a with
    | (a2, r) => (.First a2, r)
  | .Second b => match ib.shutdown b with
    | (b2, r) => (.Second b2, r)

/-- StreamMuxer trait behaviour of one concrete muxer with muxer state `μ`,
substream state `sub` and outbound-handle state `out`.  Methods taking `&self`
are modelled as functions of the muxer value; arguments taken by `&mut`
(outbound handles, substreams, read buffers) are threaded through the result. -/
structure StreamMuxer (μ sub out : Type) where
  poll_inbound : μ → Poll (Option sub)
  open_outbound : μ → out
  poll_outbound : μ → out → Poll (Option sub) × out
  destroy_outbound : μ → out → Unit
  read_substream : μ → sub → Buf → Except IoError Nat × sub × Buf
  write_substream : μ → sub → Buf → Except IoError Nat × sub
  flush_substream : μ → sub → Except IoError Unit × sub
  shutdown_substream : μ → sub → Poll Unit × sub
  destroy_substream : μ → sub → Unit
  close_inbound : μ → Unit
  close_outbound : μ → Unit

/-- enum EitherOutbound<A, B> (either.rs lines 230-235), over the two muxers'
outbound-substream types. -/
inductive EitherOutbound (OA OB : Type) where
  | A (a : OA)
  | B (b : OB)
deriving DecidableEq

/-- impl StreamMuxer for EitherOutput, `poll_inbound` (either.rs lines 107-112).
In every EitherOutput muxer operation below, a `none` result models the
`Wrong API usage` panic of the source; `some` is a normal return. -/
def EitherOutput.poll_inbound {A B sa sb oa ob : Type}
    (ma : StreamMuxer A sa oa) (mb : StreamMuxer B sb ob) :
    EitherOutput A B → Option (Poll (Option (EitherOutput sa sb)))
  | .First inner =>
      some ((ma.poll_inbound inner).map fun p => p.map fun o => o.map .First)
  | .Second inner =>
      some ((mb.poll_inbound inner).map fun p => p.map fun o => o.map .Second)

/-- impl StreamMuxer for EitherOutput, `open_outbound` (either.rs lines 114-119). -/
def EitherOutput.open_outbound {A B sa sb oa ob : Type}
    (ma : StreamMuxer A sa oa) (mb : StreamMuxer B sb ob) :
    EitherOutput A B → Option (EitherOutbound oa ob)
  | .First inner => some (.A (ma.open_outbound inner))
  | .Second inner => some (.B (mb.open_outbound inner))

/-- impl StreamMuxer for EitherOutput, `poll_outbound` (either.rs lines 121-131):
the mismatched-case arms panic (`none` here). -/
def EitherOutput.poll_outbound {A B sa sb oa ob : Type}
    (ma : StreamMuxer A sa oa) (mb : StreamMuxer B sb ob) :
    EitherOutput A B → EitherOutbound oa ob →
      Option (Poll (Option (EitherOutput sa sb)) × EitherOutbound oa ob)
  | .First inner, .A substream =>
      match ma.poll_outbound inner substream with
      | (r, s2) => some ((r.map fun p => p.map fun o => o.map .First), .A s2)
  | .Second inner, .B substream =>
      match mb.poll_outbound inner substream with
      | (r, s2) => some ((r.map fun p => p.map fun o => o.map .Second), .B s2)
  | _, _ => none

/-- impl StreamMuxer for EitherOutput, `destroy_outbound` (either.rs lines 133-148). -/
def EitherOutput.destroy_outbound {A B sa sb oa ob : Type}
    (ma : StreamMuxer A sa oa) (mb : StreamMuxer B sb ob) :
    EitherOutput A B → EitherOutbound oa ob → Option Unit
  | .First inner, .A substream => some (ma.destroy_outbound inner substream)
  | .Second inner, .B substream => some (mb.destroy_outbound inner substream)
  | _, _ => none

/-- impl StreamMuxer for EitherOutput, `read_substream` (either.rs lines 150-160). -/
def EitherOutput.read_substream {A B sa sb oa ob : Type}
    (ma : StreamMuxer A sa oa) (mb : StreamMuxer B sb ob) :
    EitherOutput A B → EitherOutput sa sb → Buf →
      Option (Except IoError Nat × EitherOutput sa sb × Buf)
  | .First inner, .First substream, buf =>
      match ma.read_substream inner substream buf with
      | (r, s2, buf2) => some (r, .First s2, buf2)
  | .Second inner, .Second substream, buf =>
      match mb.read_substream inner substream buf with
      | (r, s2, buf2) => some (r, .Second s2, buf2)
  | _, _, _ => none

/-- impl StreamMuxer for EitherOutput, `write_substream` (either.rs lines 162-172). -/
def EitherOutput.write_substream {A B sa sb oa ob : Type}
    (ma : StreamMuxer A sa oa) (mb : StreamMuxer B sb ob) :
    EitherOutput A B → EitherOutput sa sb → Buf →
      Option (Except IoError Nat × EitherOutput sa sb)
  | .First inner, .First substream, buf =>
      match ma.write_substream inner substream buf with
      | (r, s2) => some (r, .First s2)
  | .Second inner, .Second substream, buf =>
      match mb.write_substream inner substream buf with
      | (r, s2) => some (r, .Second s2)
  | _, _, _ => none

/-- impl StreamMuxer for EitherOutput, `flush_substream` (either.rs lines 174-184). -/
def EitherOutput.flush_substream {A B sa sb oa ob : Type}
    (ma : StreamMuxer A sa oa) (mb : StreamMuxer B sb ob) :
    EitherOutput A B → EitherOutput sa sb →
      Option (Except IoError Unit × EitherOutput sa sb)
  | .First inner, .First substream =>
      match ma.flush_substream inner substream with
      | (r, s2) => some (r, .First s2)
  | .Second inner, .Second substream =>
      match mb.flush_substream inner substream with
      | (r, s2) => some (r, .Second s2)
  | _, _ => none

/-- impl StreamMuxer for EitherOutput, `shutdown_substream` (either.rs lines 186-196). -/
def EitherOutput.shutdown_substream {A B sa sb oa ob : Type}
    (ma : StreamMuxer A sa oa) (mb : StreamMuxer B sb ob) :
    EitherOutput A B → EitherOutput sa sb →
      Option (Poll Unit × EitherOutput sa sb)
  | .First inner, .First substream =>
      match ma.shutdown_substream inner substream with
      | (r, s2) => some (r, .First s2)
  | .Second inner, .Second substream =>
      match mb.shutdown_substream inner substream with
      | (r, s2) => some (r, .Second s2)
  | _, _ => none

/-- impl StreamMuxer for EitherOutput, `destroy_substream` (either.rs lines 198-213). -/
def EitherOutput.destroy_substream {A B sa sb oa ob : Type}
    (ma : StreamMuxer A sa oa) (mb : StreamMuxer B sb ob) :
    EitherOutput A B → EitherOutput sa sb → Option Unit
  | .First inner, .First substream => some (ma.destroy_substream inner substream)
  | .Second inner, .Second substream => some (mb.destroy_substream inner substream)
  | _, _ => none

/-- impl StreamMuxer for EitherOutput, `close_inbound` (either.rs lines 215-220). -/
def EitherOutput.close_inbound {A B sa sb oa ob : Type}
    (ma : StreamMuxer A sa oa) (mb : StreamMuxer B sb ob) :
    EitherOutput A B → Option Unit
  | .First inner => some (ma.close_inbound inner)
  | .Second inner => some (mb.close_inbound inner)

/-- impl StreamMuxer for EitherOutput, `close_outbound` (either.rs lines 222-227). -/
def EitherOutput.close_outbound {A B sa sb oa ob : Type}
    (ma : StreamMuxer A sa oa) (mb : StreamMuxer B sb ob) :
    EitherOutput A B → Option Unit
  | .First inner => some (ma.close_outbound inner)
  | .Second inner => some (mb.close_outbound inner)

/-- Two-case stream wrapper (`enum EitherListenStream<A, B>`, either.rs lines 237-243). -/
inductive EitherListenStream (A B : Type) where
  | First (a : A)
  | Second (b : B)
deriving DecidableEq

/-- Two-case future wrapper (`enum EitherFuture<A, B>`, either.rs lines 264-270). -/
inductive EitherFuture (A B : Type) where
  | First (a : A)
  | Second (b : B)
deriving DecidableEq

/-- impl Stream for EitherListenStream, one poll step (either.rs lines 245-262).
The inner stream's poll is modelled by a state-passing function returning the
updated stream state together with the poll outcome; the produced item's future
is re-wrapped in the same case. -/
def EitherListenStream.poll {A B AI BI : Type}
    (pa : A → A × Poll (Option (AI × Multiaddr)))
    (pb : B → B × Poll (Option (BI × Multiaddr))) :
    EitherListenStream A B →
      EitherListenStream A B × Poll (Option (EitherFuture AI BI × Multiaddr))
  | .First a => match pa a with
    | (a2, r) =>
      (.First a2, r.map fun i => i.map fun v => v.map fun ⟨o, addr⟩ => (.First o, addr))
  | .Second a => match pb a with
    | (a2, r) =>
      (.Second a2, r.map fun i => i.map fun v => v.map fun ⟨o, addr⟩ => (.Second o, addr))

/-- impl Future for EitherFuture, one poll step (either.rs lines 272-287): the
resolved value is re-wrapped as an EitherOutput of the same case. -/
def EitherFuture.poll {A B AI BI : Type}
    (pa : A → A × Poll AI) (pb : B → B × Poll BI) :
    EitherFuture A B → EitherFuture A B × Poll (EitherOutput AI BI)
  | .First a => match pa a with
    | (a2, r) => (.First a2, r.map fun v => v.map .First)
  | .Second a => match pb a with
    | (a2, r) => (.Second a2, r.map fun v => v.map .Second)

/-- Concrete demonstration transport over carrier Unit with connections Nat:
dialing yields connection 5; listening binds address [9] and reports three
incoming connections from peers [1], [2] and [3], the second of which fails at
the connection level with error 7; nat_traversal concatenates the addresses. -/
def demoBase : TransportOps Unit Nat where
  dial := fun _ _ => .ok (.ok 5)
  listen_on := fun _ _ =>
    .ok (⟨[(.ok 1, [1]), (.error 7, [2]), (.ok 3, [3])], none⟩, [9])
  nat_traversal := fun _ s o => some (s ++ o)

/-- Demonstration muxed transport: one unsolicited incoming connection 4 from
peer [8]. -/
def demoMuxed : MuxedTransportOps Unit Nat where
  toTransportOps := demoBase
  next_incoming := fun _ => .ok (.ok 4, [8])

/-- Recording upgrade: resolves to the (connection, role, address) triple it
was invoked with, so witnesses can observe role and address threading. -/
def demoRecUpgrade : Upgrade Nat (Nat × Endpoint × Multiaddr) :=
  fun connection role addr => .ok (connection, role, addr)

/-- Demonstration transport that rejects every address, handing back itself
and the address. -/
def demoRejBase : TransportOps Unit Nat where
  dial := fun t a => .error (t, a)
  listen_on := fun t a => .error (t, a)
  nat_traversal := fun _ _ _ => none

/-- C1: role and address threading in AndThen.  Dialing chains the upgrade at
role Dialer with the originally requested address; listening maps every item of
the base listener stream so its connection is chained with the upgrade at role
Listener and that item's reported remote address; next_incoming does the same
with the remote address reported by the base transport's incoming future. -/
theorem c1_role_and_address_threading {τ conn O : Type}
    (base : TransportOps τ conn) (muxed : MuxedTransportOps τ conn)
    (t : τ) (u : Upgrade conn O) (addr : Multiaddr) :
    (∀ f, base.dial t addr = .ok f →
      (AndThen.transportOps base).dial (and_then t u) addr =
        .ok (f.bind fun connection => u connection .Dialer addr)) ∧
    (∀ l new_addr, base.listen_on t addr = .ok (l, new_addr) →
      (AndThen.transportOps base).listen_on (and_then t u) addr =
        .ok (l.map (fun item =>
              (item.1.bind fun stream => u stream .Listener item.2,
               item.2)),
             new_addr)) ∧
    (∀ f client_addr, muxed.next_incoming t = .ok (f, client_addr) →
      AndThen.next_incoming muxed (and_then t u) =
        .ok (f.bind fun connection => u connection .Listener client_addr,
             client_addr)) := by
  refine ⟨?_, ?_, ?_⟩
  · intro f h
    simp [AndThen.transportOps, and_then, h]
  · intro l new_addr h
    simp [AndThen.transportOps, and_then, h]
  · intro f client_addr h
    simp [AndThen.next_incoming, and_then, h, Except.map]

/-- Witness for C1 at the demonstration transport and the recording upgrade:
one dial, one listen and one next_incoming scenario. -/
theorem c1_witness :
    demoBase.dial () [4] = .ok (.ok 5) ∧
    (AndThen.transportOps demoBase).dial (and_then () demoRecUpgrade) [4] =
      .ok (.ok (5, .Dialer, [4])) ∧
    demoBase.listen_on () [4] =
      .ok (⟨[(.ok 1, [1]), (.error 7, [2]), (.ok 3, [3])], none⟩, [9]) ∧
    (AndThen.transportOps demoBase).listen_on (and_then () demoRecUpgrade) [4] =
      .ok (⟨[(.ok (1, .Listener, [1]), [1]), (.error 7, [2]),
             (.ok (3, .Listener, [3]), [3])], none⟩, [9]) ∧
    demoMuxed.next_incoming () = .ok (.ok 4, [8]) ∧
    AndThen.next_incoming demoMuxed (and_then () demoRecUpgrade) =
      .ok (.ok (4, .Listener, [8]), [8]) := by
  have h := c1_role_and_address_threading demoBase demoMuxed () demoRecUpgrade [4]
  refine ⟨rfl, ?_, rfl, ?_, rfl, ?_⟩
  · simpa [demoRecUpgrade] using h.1 (.ok 5) rfl
  · simpa [demoRecUpgrade, StreamM.map, Except.bind] using
      h.2.1 ⟨[(.ok 1, [1]), (.error 7, [2]), (.ok 3, [3])], none⟩ [9] rfl
  · simpa [demoRecUpgrade] using h.2.2 (.ok 4) [8] rfl

/-- C2: retry-after-rejection atomicity.  If the base transport rejects the
address by returning itself together with the address, then AndThen's dial and
listen_on return the original AndThen (same transport value, same upgrade)
paired with the unchanged address. -/
theorem c2_retry_after_rejection {τ conn O : Type}
    (base : TransportOps τ conn) (x : AndThen τ (Upgrade conn O))
    (addr : Multiaddr) :
    (base.dial x.transport addr = .error (x.transport, addr) →
      (AndThen.transportOps base).dial x addr = .error (x, addr)) ∧
    (base.listen_on x.transport addr = .error (x.transport, addr) →
      (AndThen.transportOps base).listen_on x addr = .error (x, addr)) := by
  constructor <;> intro h <;> simp [AndThen.transportOps, h]

/-- Witness for C2 at the always-rejecting demonstration transport. -/
theorem c2_witness :
    (demoRejBase.dial () [7] = .error ((), [7]) ∧
      (AndThen.transportOps demoRejBase).dial (and_then () demoRecUpgrade) [7] =
        .error (and_then () demoRecUpgrade, [7])) ∧
    (demoRejBase.listen_on () [7] = .error ((), [7]) ∧
      (AndThen.transportOps demoRejBase).listen_on (and_then () demoRecUpgrade) [7] =
        .error (and_then () demoRecUpgrade, [7])) := by
  have h := c2_retry_after_rejection demoRejBase (and_then () demoRecUpgrade) [7]
  exact ⟨⟨rfl, h.1 rfl⟩, ⟨rfl, h.2 rfl⟩⟩

/-- C8: nat_traversal is a pure pass-through to the base transport, with both
addresses handed over unmodified. -/
theorem c8_nat_traversal_passthrough {τ conn O : Type}
    (base : TransportOps τ conn) (x : AndThen τ (Upgrade conn O))
    (server observed : Multiaddr) :
    (AndThen.transportOps base).nat_traversal x server observed =
      base.nat_traversal x.transport server observed := rfl

/-- Upgrade that fails on connection 2 with error 9 and upgrades every other
connection c to c * 10. -/
def demoFailUpgrade : Upgrade Nat Nat :=
  fun connection _ _ => if connection = 2 then .error 9 else .ok (connection * 10)

/-- Items of the demonstration listener: three healthy incoming connections
1, 2, 3 from peers [1], [2], [3]. -/
def demoItems : List (FutureM Nat × Multiaddr) :=
  [(.ok 1, [1]), (.ok 2, [2]), (.ok 3, [3])]

/-- Demonstration transport whose dial reaches connection 2 and whose listener
reports the three demonstration items, bound at address [9]. -/
def demoListenBase : TransportOps Unit Nat where
  dial := fun _ _ => .ok (.ok 2)
  listen_on := fun _ _ => .ok (⟨demoItems, none⟩, [9])
  nat_traversal := fun _ _ _ => none

/-- Demonstration muxed transport whose unsolicited incoming connection is 2
from peer [8]. -/
def demoFailMuxed : MuxedTransportOps Unit Nat where
  toTransportOps := demoListenBase
  next_incoming := fun _ => .ok (.ok 2, [8])

/-- C5: upgrade failure surfaces as a future-level error.  When the base
connection succeeds and the upgrade future resolves to error e, the future
handed to the caller by dial, by the corresponding listener item, or by
next_incoming itself resolves to error e — not to a success wrapping a
failure. -/
theorem c5_upgrade_failure_is_future_error {τ conn O : Type}
    (base : TransportOps τ conn) (muxed : MuxedTransportOps τ conn)
    (t : τ) (u : Upgrade conn O) (addr : Multiaddr) (e : IoError) :
    (∀ connection, base.dial t addr = .ok (.ok connection) →
      u connection .Dialer addr = .error e →
      (AndThen.transportOps base).dial (and_then t u) addr = .ok (.error e)) ∧
    (∀ l new_addr, base.listen_on t addr = .ok (l, new_addr) →
      ∀ i (hi : i < l.items.length) connection,
        (l.items[i]).1 = .ok connection →
        u connection .Listener (l.items[i]).2 = .error e →
        ∃ l2, (AndThen.transportOps base).listen_on (and_then t u) addr =
                .ok (l2, new_addr) ∧
          ∃ hi2 : i < l2.items.length, (l2.items[i]).1 = .error e) ∧
    (∀ connection client_addr,
      muxed.next_incoming t = .ok (.ok connection, client_addr) →
      u connection .Listener client_addr = .error e →
      AndThen.next_incoming muxed (and_then t u) =
        .ok (.error e, client_addr)) := by
  refine ⟨?_, ?_, ?_⟩
  · intro connection h hu
    simp [AndThen.transportOps, and_then, h, Except.bind, hu]
  · intro l new_addr h i hi connection hconn hu
    refine ⟨l.map (fun item =>
        (item.1.bind fun stream => u stream .Listener item.2, item.2)),
      by simp [AndThen.transportOps, and_then, h],
      by simpa [StreamM.map] using hi, ?_⟩
    simp [StreamM.map, hconn, Except.bind, hu]
  · intro connection client_addr h hu
    simp [AndThen.next_incoming, and_then, h, Except.map, Except.bind, hu]

/-- Witness for C5: the upgrade failing on connection 2 with error 9,
exercised through dial, through the second listener item and through
next_incoming. -/
theorem c5_witness :
    (demoListenBase.dial () [2] = .ok (.ok 2)) ∧
    (demoFailUpgrade 2 .Dialer [2] = .error 9) ∧
    ((AndThen.transportOps demoListenBase).dial
        (and_then () demoFailUpgrade) [2] = .ok (.error 9)) ∧
    (∃ l2, (AndThen.transportOps demoListenBase).listen_on
        (and_then () demoFailUpgrade) [4] = .ok (l2, [9]) ∧
      ∃ hi2 : 1 < l2.items.length, (l2.items[1]).1 = .error 9) ∧
    (AndThen.next_incoming demoFailMuxed (and_then () demoFailUpgrade) =
      .ok (.error 9, [8])) := by
  have h := c5_upgrade_failure_is_future_error demoListenBase demoFailMuxed
    () demoFailUpgrade [2] 9
  have h4 := c5_upgrade_failure_is_future_error demoListenBase demoFailMuxed
    () demoFailUpgrade [4] 9
  refine ⟨rfl, rfl, ?_, ?_, ?_⟩
  · exact h.1 2 rfl rfl
  · exact h4.2.1 ⟨demoItems, none⟩ [9] rfl 1 (by decide) 2 rfl rfl
  · exact h.2.2 2 [8] rfl rfl

/-- C6: negotiation isolation.  If the composed upgrade future of item k over
the base listener stream fails with error e, the AndThen listener still yields
as many items as the base stream, its terminal outcome is exactly the base
stream's, and every other item is precisely the upgrade of its own base item,
untouched by the failure at k. -/
theorem c6_negotiation_isolation {τ conn O : Type}
    (base : TransportOps τ conn) (t : τ) (u : Upgrade conn O) (addr : Multiaddr)
    (l : StreamM (FutureM conn × Multiaddr)) (new_addr : Multiaddr)
    (k : Nat) (e : IoError)
    (h : base.listen_on t addr = .ok (l, new_addr))
    (hk : k < l.items.length)
    (hfail : ((l.items[k]).1.bind fun stream =>
      u stream .Listener (l.items[k]).2) = .error e) :
    ∃ l2, (AndThen.transportOps base).listen_on (and_then t u) addr =
            .ok (l2, new_addr) ∧
      l2.items.length = l.items.length ∧
      l2.final = l.final ∧
      ∀ j (hj : j < l.items.length) (hj2 : j < l2.items.length), j ≠ k →
        l2.items[j] =
          ((l.items[j]).1.bind fun stream => u stream .Listener (l.items[j]).2,
           (l.items[j]).2) := by
  refine ⟨l.map (fun item =>
      (item.1.bind fun stream => u stream .Listener item.2, item.2)),
    by simp [AndThen.transportOps, and_then, h], ?_, ?_, ?_⟩
  · simp [StreamM.map]
  · simp [StreamM.map]
  · intro j hj hj2 hne
    simp [StreamM.map]

/-- Witness for C6: three incoming connections with the upgrade failing on the
middle one; both neighbours still upgrade and the stream still ends cleanly. -/
theorem c6_witness :
    (demoListenBase.listen_on () [4] = .ok (⟨demoItems, none⟩, [9])) ∧
    (1 < demoItems.length) ∧
    (((demoItems.get ⟨1, by decide⟩).1.bind fun stream =>
      demoFailUpgrade stream .Listener (demoItems.get ⟨1, by decide⟩).2) =
        .error 9) ∧
    (∃ l2, (AndThen.transportOps demoListenBase).listen_on
        (and_then () demoFailUpgrade) [4] = .ok (l2, [9]) ∧
      l2.items.length = demoItems.length ∧
      l2.final = none ∧
      ∀ j (hj : j < demoItems.length) (hj2 : j < l2.items.length), j ≠ 1 →
        l2.items[j] =
          ((demoItems[j]).1.bind fun stream =>
              demoFailUpgrade stream .Listener (demoItems[j]).2,
           (demoItems[j]).2)) := by
  refine ⟨rfl, by decide, rfl, ?_⟩
  exact c6_negotiation_isolation demoListenBase () demoFailUpgrade [4]
    ⟨demoItems, none⟩ [9] 1 9 rfl (by decide) rfl

/-- C9: address pass-through in listen_on.  On success, AndThen reports the
exact bound address the base transport reported, and every item of the upgraded
stream carries the exact remote address of its base item. -/
theorem c9_address_passthrough {τ conn O : Type}
    (base : TransportOps τ conn) (t : τ) (u : Upgrade conn O) (addr : Multiaddr)
    (l : StreamM (FutureM conn × Multiaddr)) (new_addr : Multiaddr)
    (h : base.listen_on t addr = .ok (l, new_addr)) :
    ∃ l2, (AndThen.transportOps base).listen_on (and_then t u) addr =
            .ok (l2, new_addr) ∧
      l2.items.length = l.items.length ∧
      ∀ j (hj : j < l.items.length) (hj2 : j < l2.items.length),
        (l2.items[j]).2 = (l.items[j]).2 := by
  refine ⟨l.map (fun item =>
      (item.1.bind fun stream => u stream .Listener item.2, item.2)),
    by simp [AndThen.transportOps, and_then, h], ?_, ?_⟩
  · simp [StreamM.map]
  · intro j hj hj2
    simp [StreamM.map]

/-- Witness for C9 at the demonstration listener: bound address [9] and remote
addresses [1], [2], [3] come through unchanged. -/
theorem c9_witness :
    (demoListenBase.listen_on () [4] = .ok (⟨demoItems, none⟩, [9])) ∧
    (∃ l2, (AndThen.transportOps demoListenBase).listen_on
        (and_then () demoRecUpgrade) [4] = .ok (l2, [9]) ∧
      l2.items.length = demoItems.length ∧
      ∀ j (hj : j < demoItems.length) (hj2 : j < l2.items.length),
        (l2.items[j]).2 = (demoItems[j]).2) := by
  refine ⟨rfl, ?_⟩
  exact c9_address_passthrough demoListenBase () demoRecUpgrade [4]
    ⟨demoItems, none⟩ [9] rfl

/-- C3: Either transparency.  For every operation — read, write, flush,
shutdown, one Future poll, one Stream poll, and each StreamMuxer operation
applied to matching cases — invoking the operation on a wrapper in case First
holding X yields exactly the outcome of invoking it on X directly, with every
produced value (updated stream state, substream, outbound handle) re-wrapped in
case First; symmetrically for case Second. -/
theorem c3_either_transparency
    {A B M N sa sb oa ob FA FB AI BI SA SB AJ BJ : Type}
    (ia : IoOps A) (ib : IoOps B)
    (ma : StreamMuxer M sa oa) (mb : StreamMuxer N sb ob)
    (pa : FA → FA × Poll AI) (pb : FB → FB × Poll BI)
    (qa : SA → SA × Poll (Option (AJ × Multiaddr)))
    (qb : SB → SB × Poll (Option (BJ × Multiaddr))) :
    (∀ a buf, EitherOutput.read ia ib (.First a) buf =
      (.First (ia.read a buf).1, (ia.read a buf).2.1, (ia.read a buf).2.2)) ∧
    (∀ b buf, EitherOutput.read ia ib (.Second b) buf =
      (.Second (ib.read b buf).1, (ib.read b buf).2.1, (ib.read b buf).2.2)) ∧
    (∀ a buf, EitherOutput.write ia ib (.First a) buf =
      (.First (ia.write a buf).1, (ia.write a buf).2)) ∧
    (∀ b buf, EitherOutput.write ia ib (.Second b) buf =
      (.Second (ib.write b buf).1, (ib.write b buf).2)) ∧
    (∀ a, EitherOutput.flush ia ib (.First a) =
      (.First (ia.flush a).1, (ia.flush a).2)) ∧
    (∀ b, EitherOutput.flush ia ib (.Second b) =
      (.Second (ib.flush b).1, (ib.flush b).2)) ∧
    (∀ a, EitherOutput.shutdown ia ib (.First a) =
      (.First (ia.shutdown a).1, (ia.shutdown a).2)) ∧
    (∀ b, EitherOutput.shutdown ia ib (.Second b) =
      (.Second (ib.shutdown b).1, (ib.shutdown b).2)) ∧
    (∀ f, EitherFuture.poll pa pb (.First f) =
      (.First (pa f).1, (pa f).2.map fun v => v.map .First)) ∧
    (∀ g, EitherFuture.poll pa pb (.Second g) =
      (.Second (pb g).1, (pb g).2.map fun v => v.map .Second)) ∧
    (∀ s, EitherListenStream.poll qa qb (.First s) =
      (.First (qa s).1, (qa s).2.map fun i => i.map fun v => v.map fun p =>
        (.First p.1, p.2))) ∧
    (∀ s, EitherListenStream.poll qa qb (.Second s) =
      (.Second (qb s).1, (qb s).2.map fun i => i.map fun v => v.map fun p =>
        (.Second p.1, p.2))) ∧
    (∀ m, EitherOutput.poll_inbound ma mb (.First m) =
      some ((ma.poll_inbound m).map fun p => p.map fun o => o.map .First)) ∧
    (∀ n, EitherOutput.poll_inbound ma mb (.Second n) =
      some ((mb.poll_inbound n).map fun p => p.map fun o => o.map .Second)) ∧
    (∀ m, EitherOutput.open_outbound ma mb (.First m) =
      some (.A (ma.open_outbound m))) ∧
    (∀ n, EitherOutput.open_outbound ma mb (.Second n) =
      some (.B (mb.open_outbound n))) ∧
    (∀ m h, EitherOutput.poll_outbound ma mb (.First m) (.A h) =
      some ((ma.poll_outbound m h).1.map fun p => p.map fun o => o.map .First,
            .A (ma.poll_outbound m h).2)) ∧
    (∀ n h, EitherOutput.poll_outbound ma mb (.Second n) (.B h) =
      some ((mb.poll_outbound n h).1.map fun p => p.map fun o => o.map .Second,
            .B (mb.poll_outbound n h).2)) ∧
    (∀ m h, EitherOutput.destroy_outbound ma mb (.First m) (.A h) =
      some (ma.destroy_outbound m h)) ∧
    (∀ n h, EitherOutput.destroy_outbound ma mb (.Second n) (.B h) =
      some (mb.destroy_outbound n h)) ∧
    (∀ m s buf, EitherOutput.read_substream ma mb (.First m) (.First s) buf =
      some ((ma.read_substream m s buf).1,
            .First (ma.read_substream m s buf).2.1,
            (ma.read_substream m s buf).2.2)) ∧
    (∀ n s buf, EitherOutput.read_substream ma mb (.Second n) (.Second s) buf =
      some ((mb.read_substream n s buf).1,
            .Second (mb.read_substream n s buf).2.1,
            (mb.read_substream n s buf).2.2)) ∧
    (∀ m s buf, EitherOutput.write_substream ma mb (.First m) (.First s) buf =
      some ((ma.write_substream m s buf).1,
            .First (ma.write_substream m s buf).2)) ∧
    (∀ n s buf, EitherOutput.write_substream ma mb (.Second n) (.Second s) buf =
      some ((mb.write_substream n s buf).1,
            .Second (mb.write_substream n s buf).2)) ∧
    (∀ m s, EitherOutput.flush_substream ma mb (.First m) (.First s) =
      some ((ma.flush_substream m s).1, .First (ma.flush_substream m s).2)) ∧
    (∀ n s, EitherOutput.flush_substream ma mb (.Second n) (.Second s) =
      some ((mb.flush_substream n s).1, .Second (mb.flush_substream n s).2)) ∧
    (∀ m s, EitherOutput.shutdown_substream ma mb (.First m) (.First s) =
      some ((ma.shutdown_substream m s).1,
            .First (ma.shutdown_substream m s).2)) ∧
    (∀ n s, EitherOutput.shutdown_substream ma mb (.Second n) (.Second s) =
      some ((mb.shutdown_substream n s).1,
            .Second (mb.shutdown_substream n s).2)) ∧
    (∀ m s, EitherOutput.destroy_substream ma mb (.First m) (.First s) =
      some (ma.destroy_substream m s)) ∧
    (∀ n s, EitherOutput.destroy_substream ma mb (.Second n) (.Second s) =
      some (mb.destroy_substream n s)) ∧
    (∀ m, EitherOutput.close_inbound ma mb (.First m) =
      some (ma.close_inbound m)) ∧
    (∀ n, EitherOutput.close_inbound ma mb (.Second n) =
      some (mb.close_inbound n)) ∧
    (∀ m, EitherOutput.close_outbound ma mb (.First m) =
      some (ma.close_outbound m)) ∧
    (∀ n, EitherOutput.close_outbound ma mb (.Second n) =
      some (mb.close_outbound n)) := by
  refine ⟨?_, ?_, ?_, ?_, ?_, ?_, ?_, ?_, ?_, ?_, ?_, ?_, ?_, ?_, ?_, ?_, ?_,
    ?_, ?_, ?_, ?_, ?_, ?_, ?_, ?_, ?_, ?_, ?_, ?_, ?_, ?_, ?_, ?_, ?_⟩ <;>
    intros <;> rfl

/-- C4: contract violations fail loudly.  Every handle- or substream-taking
operation applied to an Either case that does not match the muxer's case hits
the Wrong API usage panic (modelled as `none`) instead of returning a value. -/
theorem c4_mismatch_panics {A B sa sb oa ob : Type}
    (ma : StreamMuxer A sa oa) (mb : StreamMuxer B sb ob) :
    (∀ a h, EitherOutput.poll_outbound ma mb (.First a) (.B h) = none) ∧
    (∀ b h, EitherOutput.poll_outbound ma mb (.Second b) (.A h) = none) ∧
    (∀ a h, EitherOutput.destroy_outbound ma mb (.First a) (.B h) = none) ∧
    (∀ b h, EitherOutput.destroy_outbound ma mb (.Second b) (.A h) = none) ∧
    (∀ a s buf, EitherOutput.read_substream ma mb (.First a) (.Second s) buf = none) ∧
    (∀ b s buf, EitherOutput.read_substream ma mb (.Second b) (.First s) buf = none) ∧
    (∀ a s buf, EitherOutput.write_substream ma mb (.First a) (.Second s) buf = none) ∧
    (∀ b s buf, EitherOutput.write_substream ma mb (.Second b) (.First s) buf = none) ∧
    (∀ a s, EitherOutput.flush_substream ma mb (.First a) (.Second s) = none) ∧
    (∀ b s, EitherOutput.flush_substream ma mb (.Second b) (.First s) = none) ∧
    (∀ a s, EitherOutput.shutdown_substream ma mb (.First a) (.Second s) = none) ∧
    (∀ b s, EitherOutput.shutdown_substream ma mb (.Second b) (.First s) = none) ∧
    (∀ a s, EitherOutput.destroy_substream ma mb (.First a) (.Second s) = none) ∧
    (∀ b s, EitherOutput.destroy_substream ma mb (.Second b) (.First s) = none) := by
  refine ⟨?_, ?_, ?_, ?_, ?_, ?_, ?_, ?_, ?_, ?_, ?_, ?_, ?_, ?_⟩ <;>
    intros <;> rfl

/-- Tag check: is this EitherOutput value in case First. -/
def EitherOutput.isFirstCase {A B : Type} : EitherOutput A B → Bool
  | .First _ => true
  | .Second _ => false

/-- Tag check: is this outbound handle in case A. -/
def EitherOutbound.isACase {OA OB : Type} : EitherOutbound OA OB → Bool
  | .A _ => true
  | .B _ => false

/-- Holds when every substream contained in the poll outcome satisfies the tag
check (vacuously for errors, not-ready and end-of-inbound outcomes). -/
def pollSubsTagged {A B : Type} (f : EitherOutput A B → Bool) :
    Poll (Option (EitherOutput A B)) → Bool
  | .ok (.Ready (some s)) => f s
  | _ => true

theorem pollSubsTagged_map_first {X Y : Type} (p : Poll (Option X)) :
    pollSubsTagged (fun s : EitherOutput X Y => s.isFirstCase)
      (p.map fun q => q.map fun o =>
        o.map (fun s => (EitherOutput.First s : EitherOutput X Y))) = true := by
  rcases p with e | v
  · rfl
  · rcases v with x | _
    · rcases x with _ | s <;> rfl
    · rfl

theorem pollSubsTagged_map_second {X Y : Type} (p : Poll (Option Y)) :
    pollSubsTagged (fun s : EitherOutput X Y => !s.isFirstCase)
      (p.map fun q => q.map fun o =>
        o.map (fun s => (EitherOutput.Second s : EitherOutput X Y))) = true := by
  rcases p with e | v
  · rfl
  · rcases v with x | _
    · rcases x with _ | s <;> rfl
    · rfl

/-- C7: case-tagging invariant.  A First muxer returns normally from
poll_inbound, open_outbound and matched poll_outbound, every substream these
produce is tagged First, and every outbound handle open_outbound produces is
tagged A; symmetrically a Second muxer produces only Second/B-tagged values. -/
theorem c7_case_tagging {A B sa sb oa ob : Type}
    (ma : StreamMuxer A sa oa) (mb : StreamMuxer B sb ob) :
    (∀ a, ∃ r, EitherOutput.poll_inbound ma mb (.First a) = some r ∧
      pollSubsTagged (fun s => s.isFirstCase) r = true) ∧
    (∀ a, ∃ h, EitherOutput.open_outbound ma mb (.First a) = some h ∧
      h.isACase = true) ∧
    (∀ a h, ∃ r h2,
      EitherOutput.poll_outbound ma mb (.First a) (.A h) = some (r, h2) ∧
      pollSubsTagged (fun s => s.isFirstCase) r = true ∧ h2.isACase = true) ∧
    (∀ b, ∃ r, EitherOutput.poll_inbound ma mb (.Second b) = some r ∧
      pollSubsTagged (fun s => !s.isFirstCase) r = true) ∧
    (∀ b, ∃ h, EitherOutput.open_outbound ma mb (.Second b) = some h ∧
      h.isACase = false) ∧
    (∀ b h, ∃ r h2,
      EitherOutput.poll_outbound ma mb (.Second b) (.B h) = some (r, h2) ∧
      pollSubsTagged (fun s => !s.isFirstCase) r = true ∧
      h2.isACase = false) := by
  refine ⟨?_, ?_, ?_, ?_, ?_, ?_⟩
  · intro a
    exact ⟨_, rfl, pollSubsTagged_map_first (ma.poll_inbound a)⟩
  · intro a
    exact ⟨_, rfl, rfl⟩
  · intro a h
    exact ⟨_, _, rfl, pollSubsTagged_map_first (ma.poll_outbound a h).1, rfl⟩
  · intro b
    exact ⟨_, rfl, pollSubsTagged_map_second (mb.poll_inbound b)⟩
  · intro b
    exact ⟨_, rfl, rfl⟩
  · intro b h
    exact ⟨_, _, rfl, pollSubsTagged_map_second (mb.poll_outbound b h).1, rfl⟩

/-- C10: the EitherOutput muxer operations that receive no substream or
outbound handle — poll_inbound, open_outbound, close_inbound, close_outbound —
return normally (never `none`, the model of the contract-violation panic) for
every muxer case. -/
theorem c10_handleless_ops_never_panic {A B sa sb oa ob : Type}
    (ma : StreamMuxer A sa oa) (mb : StreamMuxer B sb ob)
    (m : EitherOutput A B) :
    (EitherOutput.poll_inbound ma mb m).isSome = true ∧
    (EitherOutput.open_outbound ma mb m).isSome = true ∧
    (EitherOutput.close_inbound ma mb m).isSome = true ∧
    (EitherOutput.close_outbound ma mb m).isSome = true := by
  cases m <;> exact ⟨rfl, rfl, rfl, rfl⟩

end P2p
